import Mathlib

/-!
Shallow embedding of the transaction-construction and pre-flight-validation
pipeline of the Tropykus JavaScript SDK (src/cToken.ts: supply, redeem,
borrow, repayBorrow).

Modelling conventions:
* On-chain numbers (ethers BigNumber values) are `Int`; chain reads
  (uint256 results) are `Nat`.
* A JavaScript amount argument is `AmountArg`: a decimal string, a number,
  a BigNumber, or any other value (`other`).  A decimal string or the
  decimal rendering of a number is a `Dec`: mantissa `m` with `e`
  fractional digits, denoting m / 10^e (so the string "-1" is ⟨-1, 0⟩
  while "-1.0" is ⟨-10, 1⟩).
* The static address / decimals / token-list tables of src/constants.ts
  (external configuration, not under src/) are an abstract `Registry`
  parameter; the chain client read results (src/eth.ts `read`) are a
  `ChainEnv` parameter.
* Each operation returns its error (`Option String`, the thrown message)
  together with the temporally ordered trace of chain interactions it
  performed: read calls, transaction submissions (with their numeric and
  address arguments and the attached native value), and wait events.  An
  `await tx.wait()` in the source appears as `txWaitAwaited` (the pipeline
  suspends until the transaction is mined); a `tx.wait()` whose promise is
  discarded without `await` appears as `txWaitFloating` (the pipeline
  proceeds immediately).
-/

/-- A decimal literal: mantissa `m` with `e` fractional digits, denoting
the rational m / 10^e.  This is the canonical content of a decimal string;
distinct strings ("1" vs "1.0") are distinct `Dec`s (⟨1,0⟩ vs ⟨10,1⟩). -/
structure Dec where
  m : Int
  e : Nat
deriving DecidableEq, Repr

/-- A JavaScript `amount` argument as received by the pipeline: a decimal
string, a number (carried as its decimal rendering), an ethers BigNumber,
or a value of any other type. -/
inductive AmountArg where
  | str (d : Dec)
  | num (d : Dec)
  | big (v : Int)
  | other
deriving DecidableEq, Repr

/-- The decimal content of `amount.toString()`; `none` for non-numeric
arguments. -/
def amountToDec : AmountArg → Option Dec
  | .str d => some d
  | .num d => some d
  | .big v => some ⟨v, 0⟩
  | .other => none

/-- The `typeof amount !== "number" && typeof amount !== "string" &&
!ethers.BigNumber.isBigNumber(amount)` test, negated: `true` iff the
argument is a string, number or BigNumber. -/
def amountTypeOk : AmountArg → Bool
  | .other => false
  | _ => true

/-- Model of `ethers.utils.parseUnits` on a decimal string: fails when the
fractional component exceeds the target precision, otherwise shifts the
mantissa to exactly `dd` fractional digits. -/
def parseUnits (d : Dec) (dd : Nat) : Option Int :=
  if d.e ≤ dd then some (d.m * (10 : Int) ^ (dd - d.e)) else none

/-- Model of `ethers.BigNumber.from` on a decimal string: only integral
strings (no fractional digits) are accepted. -/
def bigNumberFrom (d : Dec) : Option Int :=
  if d.e = 0 then some d.m else none

/-- The shared unit-conversion step of the pipeline
(`if (!options.mantissa) amount = parseUnits(amount.toString(), decimals);
amount = BigNumber.from(amount.toString())`): scales a natural amount by
the asset's decimals unless the context declares it already scaled. -/
def convertAmount (mantissa : Bool) (a : AmountArg) (dd : Nat) : Option Int :=
  match amountToDec a with
  | none => none
  | some d => if mantissa then bigNumberFrom d else parseUnits d dd

/-- The two cToken ABI variants selected by the pipeline. -/
inductive Abi where
  | cEther
  | cErc20
deriving DecidableEq, Repr

/-- An argument of a contract call: an address or a numeric value. -/
inductive Param where
  | addr (a : String)
  | int (n : Int)
deriving DecidableEq, Repr

/-- One chain interaction of a pipeline run, in temporal order:
`readCall` is an `eth.read`; `txSubmit` is an `eth.trx` submission with
its method, arguments and attached native value; `txWaitAwaited` is an
`await tx.wait()` (the pipeline suspends until the transaction is mined);
`txWaitFloating` is a `tx.wait()` whose promise is discarded, after which
the pipeline proceeds without suspending. -/
inductive Ev where
  | readCall (method : String)
  | txSubmit (method : String) (params : List Param) (value : Option Int)
  | txWaitAwaited (method : String)
  | txWaitFloating (method : String)
deriving DecidableEq, Repr

/-- Whether an event is a write-transaction submission. -/
def Ev.isSubmit : Ev → Bool
  | .txSubmit .. => true
  | _ => false

/-- Whether an event is an awaited transaction-mining wait. -/
def Ev.isWaitAwaited : Ev → Bool
  | .txWaitAwaited _ => true
  | _ => false

/-- The `CallOptions` object of src/types.ts, restricted to the fields the
pipeline reads or writes.  `_compoundProvider` carries the injected chain
client (modelled as an opaque numeric identifier). -/
structure CallOptions where
  mantissa : Bool := false
  abi : Option Abi := none
  value : Option Int := none
  _compoundProvider : Option Nat := none
deriving DecidableEq, Repr

/-- The static per-network configuration of src/constants.ts (external
lookup tables, kept abstract): contract addresses, the underlying and
cToken symbol lists, the decimals table, and the names of the two
native-currency markets (`constants.cETH`, `constants.cRBTC`). -/
structure Registry where
  addressOf : String → Option String
  underlyings : List String
  cTokens : List String
  decimals : String → Option Nat
  cETH : String
  cRBTC : String

/-- Decimal lookup as the code performs it: `decimals[key]`, with ethers'
default of 18 when the key is absent (`parseUnits` with an undefined
unit). -/
def lookupDecimals (reg : Registry) (key : String) : Nat :=
  (reg.decimals key).getD 18

/-- The chain-read results visible to one pipeline run: the caller's
stored borrow balance, the caller→market allowance, the caller's
market-token and underlying-equivalent balances, and the comptroller's
account liquidity and shortfall. -/
structure ChainEnv where
  borrowBalanceStored : Nat
  allowance : Nat
  balanceOf : Nat
  balanceOfUnderlying : Nat
  liquidity : Nat
  shortfall : Nat
deriving DecidableEq, Repr

/-- The observable outcome of one pipeline run: the trace of chain
interactions in order, and the thrown error message if any. -/
structure RunOut where
  events : List Ev
  err : Option String
deriving DecidableEq, Repr

/-- `ethers.constants.MaxUint256`, the maximum representable unsigned
256-bit integer. -/
def maxUint256 : Int := 2 ^ 256 - 1

/-- All events of a trace are non-writes (no transaction submitted). -/
def noSubmit (evs : List Ev) : Prop :=
  ∀ e ∈ evs, e.isSubmit = false

/-- The outcome of `supply`, which additionally surfaces the caller's
options object as it stands after the call (that function mutates the
object it was passed). -/
structure SupplyOut where
  events : List Ev
  err : Option String
  options : CallOptions
deriving DecidableEq, Repr

/-- Embedding of `supply` (src/cToken.ts lines 105-196).  `prov` is the
instance's `this._provider`. -/
def supply (reg : Registry) (env : ChainEnv) (prov : Nat) (asset : String)
    (amount : AmountArg) (options : CallOptions) : SupplyOut :=
  let cTokenName := "c" ++ asset
  if (reg.addressOf cTokenName).isNone || !(reg.underlyings.contains asset) then
    ⟨[], some "Compound [supply] | Argument `asset` cannot be supplied.", options⟩
  else if !(amountTypeOk amount) then
    ⟨[], some "Compound [supply] | Argument `amount` must be a string, number, or BigNumber.",
      options⟩
  else
    match convertAmount options.mantissa amount (lookupDecimals reg asset) with
    | none => ⟨[], some "ethers | invalid amount", options⟩
    | some a =>
      let native := cTokenName == reg.cETH || cTokenName == reg.cRBTC
      let opts1 : CallOptions :=
        { options with
            abi := some (if native then Abi.cEther else Abi.cErc20),
            _compoundProvider := some prov }
      let evs1 := [Ev.readCall "borrowBalanceStored"]
      if 0 < env.borrowBalanceStored then
        ⟨evs1, some "Compound [supply] | User has outstanding borrows", opts1⟩
      else
        let cAddr := (reg.addressOf cTokenName).getD ""
        let evs2 :=
          if native then evs1
          else
            let evA := evs1 ++ [Ev.readCall "allowance"]
            if (env.allowance : Int) < a then
              evA ++ [Ev.txSubmit "approve" [Param.addr cAddr, Param.int a] opts1.value,
                      Ev.txWaitAwaited "approve"]
            else evA
        let opts3 := if native then { opts1 with value := some a } else opts1
        let params := if native then [] else [Param.int a]
        ⟨evs2 ++ [Ev.txSubmit "mint" params opts3.value], none, opts3⟩

/-- The `asset[0] === "c"` test of `redeem` (line 239): whether the
supplied symbol carries the market-token prefix. -/
def headIsC (asset : String) : Bool :=
  asset.data.head? == some 'c'

/-- The `asset.slice(1, asset.length)` of `redeem` (line 245): the symbol
with its first character removed. -/
def strTail (asset : String) : String :=
  ⟨asset.data.drop 1⟩

/-- The market-token name `redeem` resolves: the argument itself when it
already carries the market-token prefix, else the prefixed argument. -/
def redeemCTokenName (asset : String) : String :=
  if headIsC asset then asset else "c" ++ asset

/-- The underlying-asset name `redeem` resolves: the argument with the
prefix stripped when it carries the market-token prefix, else the
argument itself. -/
def redeemUnderlyingName (asset : String) : String :=
  if headIsC asset then strTail asset else asset

/-- Embedding of `redeem` (src/cToken.ts lines 227-304).  Note that the
decimal scaling (line 263) looks decimals up under `asset` exactly as
supplied, even when it is a cToken symbol. -/
def redeem (reg : Registry) (env : ChainEnv) (asset : String)
    (amount : AmountArg) (options : CallOptions) : RunOut :=
  if asset.length < 1 then
    ⟨[], some "Compound [redeem] | Argument `asset` must be a non-empty string."⟩
  else
    let assetIsCToken := headIsC asset
    if !(reg.cTokens.contains (redeemCTokenName asset)) ||
        !(reg.underlyings.contains (redeemUnderlyingName asset)) then
      ⟨[], some "Compound [redeem] | Argument `asset` is not supported."⟩
    else if !(amountTypeOk amount) then
      ⟨[], some "Compound [redeem] | Argument `amount` must be a string, number, or BigNumber."⟩
    else
      match convertAmount options.mantissa amount (lookupDecimals reg asset) with
      | none => ⟨[], some "ethers | invalid amount"⟩
      | some a =>
        if assetIsCToken then
          let evs := [Ev.readCall "balanceOf"]
          if (env.balanceOf : Int) < a then
            ⟨evs, some "Compound [redeem] | Trying to redeem more than supplied"⟩
          else
            ⟨evs ++ [Ev.txSubmit "redeem" [Param.int a] options.value], none⟩
        else
          let evs := [Ev.readCall "balanceOfUnderlying"]
          if (env.balanceOfUnderlying : Int) < a then
            ⟨evs, some "Compound [redeem] | Trying to redeem more than supplied"⟩
          else
            ⟨evs ++ [Ev.txSubmit "redeemUnderlying" [Param.int a] options.value], none⟩

/-- Embedding of `borrow` (src/cToken.ts lines 341-408). -/
def borrow (reg : Registry) (env : ChainEnv) (asset : String)
    (amount : AmountArg) (options : CallOptions) : RunOut :=
  let cTokenName := "c" ++ asset
  if (reg.addressOf cTokenName).isNone || !(reg.underlyings.contains asset) then
    ⟨[], some "Compound [borrow] | Argument `asset` cannot be borrowed."⟩
  else if !(amountTypeOk amount) then
    ⟨[], some "Compound [borrow] | Argument `amount` must be a string, number, or BigNumber."⟩
  else
    match convertAmount options.mantissa amount (lookupDecimals reg asset) with
    | none => ⟨[], some "ethers | invalid amount"⟩
    | some a =>
      let evs := [Ev.readCall "getAccountLiquidity"]
      if 0 < env.shortfall then
        ⟨evs, some "Compound [borrow] | User is in liquidation zone"⟩
      else if (env.liquidity : Int) < a then
        ⟨evs, some "Compound [borrow] | Insufficient collateral"⟩
      else
        ⟨evs ++ [Ev.txSubmit "borrow" [Param.int a] options.value], none⟩

/-- The `borrower` argument of `repayBorrow`: `null`, a syntactically
valid address, or any other (non-address) value. -/
inductive BorrowerArg where
  | null
  | addr (a : String)
  | bad (s : String)
deriving DecidableEq, Repr

/-- Model of `ethers.utils.isAddress` on the borrower argument. -/
def BorrowerArg.isAddress : BorrowerArg → Bool
  | .addr _ => true
  | _ => false

/-- JavaScript truthiness of the borrower argument (`null` and the empty
string are falsy). -/
def BorrowerArg.truthy : BorrowerArg → Bool
  | .null => false
  | .addr _ => true
  | .bad s => !(s == "")

/-- The address carried by a valid borrower argument. -/
def BorrowerArg.theAddr : BorrowerArg → String
  | .addr a => a
  | _ => ""

/-- Embedding of `repayBorrow` (src/cToken.ts lines 450-551).  Note the
`approvalTx.wait()` at line 546 is not awaited: the trace records a
`txWaitFloating` and the repay submission follows without a suspension. -/
def repayBorrow (reg : Registry) (env : ChainEnv) (asset : String)
    (amount : AmountArg) (borrower : BorrowerArg) (options : CallOptions) : RunOut :=
  let cTokenName := "c" ++ asset
  if (reg.addressOf cTokenName).isNone || !(reg.underlyings.contains asset) then
    ⟨[], some "Compound [repayBorrow] | Argument `asset` is not supported."⟩
  else if !(amountTypeOk amount) then
    ⟨[], some "Compound [repayBorrow] | Argument `amount` must be a string, number, or BigNumber."⟩
  else
    let behalf := borrower.isAddress
    if borrower.truthy && !behalf then
      ⟨[], some "Compound [repayBorrow] | Invalid `borrower` address."⟩
    else
      match convertAmount options.mantissa amount (lookupDecimals reg asset) with
      | none => ⟨[], some "ethers | invalid amount"⟩
      | some a0 =>
        let evs1 := [Ev.readCall "borrowBalanceStored"]
        let sentinel := amountToDec amount == some ⟨-1, 0⟩
        let a := if sentinel then maxUint256 else a0
        let approvalValue : Int :=
          if sentinel then (env.borrowBalanceStored : Int) + 1 else a0
        let native := cTokenName == reg.cETH || cTokenName == reg.cRBTC
        let params0 := if behalf then [Param.addr borrower.theAddr] else []
        let params := if native then params0 else params0 ++ [Param.int a]
        let value := if native then some a else options.value
        let method := if behalf then "repayBorrowBehalf" else "repayBorrow"
        let cAddr := (reg.addressOf cTokenName).getD ""
        let evs2 :=
          if native then evs1
          else
            let evA := evs1 ++ [Ev.readCall "allowance"]
            if (env.allowance : Int) < approvalValue then
              evA ++ [Ev.txSubmit "approve" [Param.addr cAddr, Param.int approvalValue]
                        options.value,
                      Ev.txWaitFloating "approve"]
            else evA
        ⟨evs2 ++ [Ev.txSubmit method params value], none⟩

/-- A concrete registry used by witnesses: one token market (DAI) and the
two native-currency markets, with distinct decimal entries for the DAI
market token and its underlying. -/
def sampleReg : Registry where
  addressOf := fun s =>
    if s = "cDAI" then some "0xcdai"
    else if s = "DAI" then some "0xdai"
    else if s = "cETH" then some "0xceth"
    else if s = "cRBTC" then some "0xcrbtc"
    else none
  underlyings := ["DAI", "ETH", "RBTC"]
  cTokens := ["cDAI", "cETH", "cRBTC"]
  decimals := fun s =>
    if s = "DAI" then some 18
    else if s = "cDAI" then some 8
    else if s = "ETH" then some 18
    else if s = "RBTC" then some 18
    else none
  cETH := "cETH"
  cRBTC := "cRBTC"

/-- C1: when `repayBorrow` on a token market issues an approval, the
repay submission follows the approval submission with only a floating
(non-awaited) wait in between: at this concrete failing input the trace
contains no awaited mining wait at all, so the repay write is dispatched
before the approval transaction's completion has been awaited,
contradicting the claim that the pipeline blocks until the approval is
mined. -/
theorem repayBorrow_submits_before_approval_mined :
    repayBorrow sampleReg ⟨100, 0, 0, 0, 0, 0⟩ "DAI" (.num ⟨5, 0⟩) .null {} =
      ⟨[Ev.readCall "borrowBalanceStored", Ev.readCall "allowance",
        Ev.txSubmit "approve" [Param.addr "0xcdai", Param.int (5 * 10 ^ 18)] none,
        Ev.txWaitFloating "approve",
        Ev.txSubmit "repayBorrow" [Param.int (5 * 10 ^ 18)] none], none⟩ ∧
    ∀ e ∈ (repayBorrow sampleReg ⟨100, 0, 0, 0, 0, 0⟩ "DAI"
            (.num ⟨5, 0⟩) .null {}).events,
      e.isWaitAwaited = false := by
  decide

/-- C9: the amount validation of every operation checks only the
argument's type — it fails exactly on a value that is neither string,
number nor BigNumber — and the value is never inspected for sign or
range: a negative amount passes, is scaled, and is dispatched (here a
borrow of -5 on an 18-decimals market dispatches -5·10^18 even with zero
liquidity, since liquidity < amount fails for a negative amount). -/
theorem amount_validation_type_only :
    (∀ a : AmountArg, amountTypeOk a = false ↔ a = AmountArg.other) ∧
    borrow sampleReg ⟨0, 0, 0, 0, 0, 0⟩ "DAI" (.num ⟨-5, 0⟩) {} =
      ⟨[Ev.readCall "getAccountLiquidity",
        Ev.txSubmit "borrow" [Param.int (-5 * 10 ^ 18)] none], none⟩ := by
  constructor
  · intro a
    cases a <;> simp [amountTypeOk]
  · decide

/-- C3: a `supply` call by a caller whose stored borrow balance on the
resolved market is positive fails with the outstanding-borrows error,
and its trace contains no write transaction (neither approval nor
mint). -/
theorem supply_outstanding_borrow (reg : Registry) (env : ChainEnv) (prov : Nat)
    (asset : String) (amount : AmountArg) (options : CallOptions) (a : Int)
    (hres : ((reg.addressOf ("c" ++ asset)).isNone ||
              !(reg.underlyings.contains asset)) = false)
    (hok : amountTypeOk amount = true)
    (hconv : convertAmount options.mantissa amount (lookupDecimals reg asset) = some a)
    (hbb : 0 < env.borrowBalanceStored) :
    (supply reg env prov asset amount options).err =
      some "Compound [supply] | User has outstanding borrows" ∧
    noSubmit (supply reg env prov asset amount options).events := by
  simp at hres
  obtain ⟨h1, h2⟩ := hres
  rw [Option.isSome_iff_ne_none] at h1
  simp [supply, h1, h2, hok, hconv, hbb, noSubmit, Ev.isSubmit]

/-- Witness for C3 at a concrete input: a DAI supply of 1 by a caller
with stored borrow balance 5. -/
theorem supply_outstanding_borrow_witness :
    ((sampleReg.addressOf ("c" ++ "DAI")).isNone ||
      !(sampleReg.underlyings.contains "DAI")) = false ∧
    amountTypeOk (.num ⟨1, 0⟩) = true ∧
    convertAmount (CallOptions.mk false none none none).mantissa (.num ⟨1, 0⟩)
      (lookupDecimals sampleReg "DAI") = some (10 ^ 18) ∧
    0 < (5 : Nat) ∧
    ((supply sampleReg ⟨5, 0, 0, 0, 0, 0⟩ 7 "DAI" (.num ⟨1, 0⟩) {}).err =
      some "Compound [supply] | User has outstanding borrows" ∧
    noSubmit (supply sampleReg ⟨5, 0, 0, 0, 0, 0⟩ 7 "DAI" (.num ⟨1, 0⟩) {}).events) :=
  ⟨by decide, by decide, by decide, by decide,
    supply_outstanding_borrow sampleReg ⟨5, 0, 0, 0, 0, 0⟩ 7 "DAI" (.num ⟨1, 0⟩) {}
      (10 ^ 18) (by decide) (by decide) (by decide) (by decide)⟩

/-- C4: `borrow` fails with the liquidation-zone error whenever the
queried shortfall is positive, regardless of the requested amount, and
with the insufficient-collateral error when the shortfall is zero but the
queried liquidity is below the requested scaled amount; in both cases the
trace contains no write transaction. -/
theorem borrow_guards (reg : Registry) (env : ChainEnv)
    (asset : String) (amount : AmountArg) (options : CallOptions) (a : Int)
    (hres : ((reg.addressOf ("c" ++ asset)).isNone ||
              !(reg.underlyings.contains asset)) = false)
    (hok : amountTypeOk amount = true)
    (hconv : convertAmount options.mantissa amount (lookupDecimals reg asset) = some a) :
    (0 < env.shortfall →
      (borrow reg env asset amount options).err =
        some "Compound [borrow] | User is in liquidation zone" ∧
      noSubmit (borrow reg env asset amount options).events) ∧
    (env.shortfall = 0 → (env.liquidity : Int) < a →
      (borrow reg env asset amount options).err =
        some "Compound [borrow] | Insufficient collateral" ∧
      noSubmit (borrow reg env asset amount options).events) := by
  simp at hres
  obtain ⟨h1, h2⟩ := hres
  rw [Option.isSome_iff_ne_none] at h1
  constructor
  · intro hsf
    simp [borrow, h1, h2, hok, hconv, hsf, noSubmit, Ev.isSubmit]
  · intro hsf hliq
    simp [borrow, h1, h2, hok, hconv, hsf, hliq, noSubmit, Ev.isSubmit]

/-- Witness for C4 at concrete inputs: a borrow attempt with shortfall 1
hits the liquidation-zone branch, and one with shortfall 0 and liquidity
0 against a scaled request of 10^18 hits the insufficient-collateral
branch. -/
theorem borrow_guards_witness :
    0 < (1 : Nat) ∧
    ((borrow sampleReg ⟨0, 0, 0, 0, 0, 1⟩ "DAI" (.num ⟨1, 0⟩) {}).err =
        some "Compound [borrow] | User is in liquidation zone" ∧
      noSubmit (borrow sampleReg ⟨0, 0, 0, 0, 0, 1⟩ "DAI" (.num ⟨1, 0⟩) {}).events) ∧
    ((0 : Int) < 10 ^ 18 ∧
      ((borrow sampleReg ⟨0, 0, 0, 0, 0, 0⟩ "DAI" (.num ⟨1, 0⟩) {}).err =
          some "Compound [borrow] | Insufficient collateral" ∧
        noSubmit (borrow sampleReg ⟨0, 0, 0, 0, 0, 0⟩ "DAI" (.num ⟨1, 0⟩) {}).events)) :=
  ⟨by decide,
    (borrow_guards sampleReg ⟨0, 0, 0, 0, 0, 1⟩ "DAI" (.num ⟨1, 0⟩) {} (10 ^ 18)
      (by decide) (by decide) (by decide)).1 (by decide),
    by decide,
    (borrow_guards sampleReg ⟨0, 0, 0, 0, 0, 0⟩ "DAI" (.num ⟨1, 0⟩) {} (10 ^ 18)
      (by decide) (by decide) (by decide)).2 rfl (by decide)⟩

/-- C5: `redeem` fails with the insufficient-balance error when the
requested scaled amount exceeds the caller's resolved position — the
market-token balance when the supplied symbol carries the market-token
prefix, the underlying-equivalent balance otherwise — and in both cases
the trace contains no write transaction. -/
theorem redeem_insufficient_balance (reg : Registry) (env : ChainEnv)
    (asset : String) (amount : AmountArg) (options : CallOptions) (a : Int)
    (hlen : ¬ asset.length < 1)
    (hsupp : (!(reg.cTokens.contains (redeemCTokenName asset)) ||
               !(reg.underlyings.contains (redeemUnderlyingName asset))) = false)
    (hok : amountTypeOk amount = true)
    (hconv : convertAmount options.mantissa amount (lookupDecimals reg asset) = some a) :
    (headIsC asset = true → (env.balanceOf : Int) < a →
      (redeem reg env asset amount options).err =
        some "Compound [redeem] | Trying to redeem more than supplied" ∧
      noSubmit (redeem reg env asset amount options).events) ∧
    (headIsC asset = false → (env.balanceOfUnderlying : Int) < a →
      (redeem reg env asset amount options).err =
        some "Compound [redeem] | Trying to redeem more than supplied" ∧
      noSubmit (redeem reg env asset amount options).events) := by
  simp at hsupp
  obtain ⟨h1, h2⟩ := hsupp
  constructor
  · intro hc hbal
    simp [redeem, hlen, h1, h2, hok, hconv, hc, hbal, noSubmit, Ev.isSubmit]
  · intro hc hbal
    simp [redeem, hlen, h1, h2, hok, hconv, hc, hbal, noSubmit, Ev.isSubmit]

/-- Witness for C5 at concrete inputs: redeeming 2 cDAI (scaled 2·10^8)
against a market-token balance of 1, and redeeming 2 DAI (scaled 2·10^18)
against an underlying balance of 1. -/
theorem redeem_insufficient_balance_witness :
    headIsC "cDAI" = true ∧
    ((1 : Nat) : Int) < 2 * 10 ^ 8 ∧
    ((redeem sampleReg ⟨0, 0, 1, 0, 0, 0⟩ "cDAI" (.num ⟨2, 0⟩) {}).err =
        some "Compound [redeem] | Trying to redeem more than supplied" ∧
      noSubmit (redeem sampleReg ⟨0, 0, 1, 0, 0, 0⟩ "cDAI" (.num ⟨2, 0⟩) {}).events) ∧
    headIsC "DAI" = false ∧
    ((1 : Nat) : Int) < 2 * 10 ^ 18 ∧
    ((redeem sampleReg ⟨0, 0, 0, 1, 0, 0⟩ "DAI" (.num ⟨2, 0⟩) {}).err =
        some "Compound [redeem] | Trying to redeem more than supplied" ∧
      noSubmit (redeem sampleReg ⟨0, 0, 0, 1, 0, 0⟩ "DAI" (.num ⟨2, 0⟩) {}).events) :=
  ⟨by decide, by decide,
    (redeem_insufficient_balance sampleReg ⟨0, 0, 1, 0, 0, 0⟩ "cDAI" (.num ⟨2, 0⟩) {}
      (2 * 10 ^ 8) (by decide) (by decide) (by decide) (by decide)).1 (by decide) (by decide),
    by decide, by decide,
    (redeem_insufficient_balance sampleReg ⟨0, 0, 0, 1, 0, 0⟩ "DAI" (.num ⟨2, 0⟩) {}
      (2 * 10 ^ 18) (by decide) (by decide) (by decide) (by decide)).2 (by decide) (by decide)⟩

/-- C6: a validated `redeem` dispatches the entry point selected by the
form of the supplied symbol: a market-token-prefixed symbol checks the
caller's market-token balance and dispatches `redeem` (redeem by
shares), while an underlying-asset symbol checks the
underlying-equivalent balance and dispatches `redeemUnderlying` (redeem
by underlying amount). -/
theorem redeem_dispatch_fork (reg : Registry) (env : ChainEnv)
    (asset : String) (amount : AmountArg) (options : CallOptions) (a : Int)
    (hlen : ¬ asset.length < 1)
    (hsupp : (!(reg.cTokens.contains (redeemCTokenName asset)) ||
               !(reg.underlyings.contains (redeemUnderlyingName asset))) = false)
    (hok : amountTypeOk amount = true)
    (hconv : convertAmount options.mantissa amount (lookupDecimals reg asset) = some a) :
    (headIsC asset = true → ¬ ((env.balanceOf : Int) < a) →
      redeem reg env asset amount options =
        ⟨[Ev.readCall "balanceOf",
          Ev.txSubmit "redeem" [Param.int a] options.value], none⟩) ∧
    (headIsC asset = false → ¬ ((env.balanceOfUnderlying : Int) < a) →
      redeem reg env asset amount options =
        ⟨[Ev.readCall "balanceOfUnderlying",
          Ev.txSubmit "redeemUnderlying" [Param.int a] options.value], none⟩) := by
  simp at hsupp
  obtain ⟨h1, h2⟩ := hsupp
  constructor
  · intro hc hbal
    simp [redeem, hlen, h1, h2, hok, hconv, hc, hbal]
  · intro hc hbal
    simp [redeem, hlen, h1, h2, hok, hconv, hc, hbal]

/-- Witness for C6 at concrete inputs: redeeming 2 cDAI (scaled 2·10^8,
market-token balance 10^9) dispatches `redeem`, and redeeming 2 DAI
(scaled 2·10^18, underlying balance 10^19) dispatches
`redeemUnderlying`. -/
theorem redeem_dispatch_fork_witness :
    headIsC "cDAI" = true ∧
    ¬ (((10 ^ 9 : Nat) : Int) < 2 * 10 ^ 8) ∧
    redeem sampleReg ⟨0, 0, 10 ^ 9, 0, 0, 0⟩ "cDAI" (.num ⟨2, 0⟩) {} =
      ⟨[Ev.readCall "balanceOf",
        Ev.txSubmit "redeem" [Param.int (2 * 10 ^ 8)] none], none⟩ ∧
    headIsC "DAI" = false ∧
    ¬ (((10 ^ 19 : Nat) : Int) < 2 * 10 ^ 18) ∧
    redeem sampleReg ⟨0, 0, 0, 10 ^ 19, 0, 0⟩ "DAI" (.num ⟨2, 0⟩) {} =
      ⟨[Ev.readCall "balanceOfUnderlying",
        Ev.txSubmit "redeemUnderlying" [Param.int (2 * 10 ^ 18)] none], none⟩ :=
  ⟨by decide, by decide,
    (redeem_dispatch_fork sampleReg ⟨0, 0, 10 ^ 9, 0, 0, 0⟩ "cDAI" (.num ⟨2, 0⟩) {}
      (2 * 10 ^ 8) (by decide) (by decide) (by decide) (by decide)).1
      (by decide) (by decide),
    by decide, by decide,
    (redeem_dispatch_fork sampleReg ⟨0, 0, 0, 10 ^ 19, 0, 0⟩ "DAI" (.num ⟨2, 0⟩) {}
      (2 * 10 ^ 18) (by decide) (by decide) (by decide) (by decide)).2
      (by decide) (by decide)⟩

/-- C2: a `repayBorrow` whose input amount prints as exactly "-1", on a
token (non-native) market, dispatches the maximum representable unsigned
256-bit integer as the on-chain repay argument, while the allowance
check and any approval transaction use currentBorrowBalance + 1 as the
approval target, not the sentinel. -/
theorem repayBorrow_sentinel (reg : Registry) (env : ChainEnv)
    (asset : String) (amount : AmountArg) (borrower : BorrowerArg)
    (options : CallOptions) (a0 : Int)
    (hres : ((reg.addressOf ("c" ++ asset)).isNone ||
              !(reg.underlyings.contains asset)) = false)
    (hok : amountTypeOk amount = true)
    (hb : (borrower.truthy && !borrower.isAddress) = false)
    (hconv : convertAmount options.mantissa amount (lookupDecimals reg asset) = some a0)
    (hsent : amountToDec amount = some ⟨-1, 0⟩)
    (hnat : ("c" ++ asset == reg.cETH || "c" ++ asset == reg.cRBTC) = false) :
    repayBorrow reg env asset amount borrower options =
      ⟨[Ev.readCall "borrowBalanceStored", Ev.readCall "allowance"] ++
        (if (env.allowance : Int) < (env.borrowBalanceStored : Int) + 1 then
          [Ev.txSubmit "approve"
            [Param.addr ((reg.addressOf ("c" ++ asset)).getD ""),
             Param.int ((env.borrowBalanceStored : Int) + 1)] options.value,
           Ev.txWaitFloating "approve"]
        else []) ++
        [Ev.txSubmit (if borrower.isAddress then "repayBorrowBehalf" else "repayBorrow")
          ((if borrower.isAddress then [Param.addr borrower.theAddr] else []) ++
            [Param.int maxUint256])
          options.value], none⟩ := by
  simp at hres
  obtain ⟨h1, h2⟩ := hres
  rw [Option.isSome_iff_ne_none] at h1
  simp [repayBorrow, h1, h2, hok, hb, hconv, hsent, hnat]
  split <;> simp

/-- Witness for C2 at a concrete input: repaying "-1" DAI with stored
borrow balance 7 and allowance 0 dispatches MaxUint256 as the repay
argument and approves exactly 7 + 1 = 8. -/
theorem repayBorrow_sentinel_witness :
    amountToDec (.num ⟨-1, 0⟩) = some ⟨-1, 0⟩ ∧
    ("c" ++ "DAI" == sampleReg.cETH || "c" ++ "DAI" == sampleReg.cRBTC) = false ∧
    repayBorrow sampleReg ⟨7, 0, 0, 0, 0, 0⟩ "DAI" (.num ⟨-1, 0⟩) .null {} =
      ⟨[Ev.readCall "borrowBalanceStored", Ev.readCall "allowance",
        Ev.txSubmit "approve" [Param.addr "0xcdai", Param.int 8] none,
        Ev.txWaitFloating "approve",
        Ev.txSubmit "repayBorrow" [Param.int maxUint256] none], none⟩ :=
  ⟨by decide, by decide, by
    have h := repayBorrow_sentinel sampleReg ⟨7, 0, 0, 0, 0, 0⟩ "DAI" (.num ⟨-1, 0⟩)
      .null {} (-(10 ^ 18)) (by decide) (by decide) (by decide) (by decide)
      (by decide) (by decide)
    exact h⟩

/-- C7: the shared conversion step multiplies a natural amount by
10^decimals — the scaled result times 10^(fractional digits) equals the
mantissa times 10^decimals, i.e. scaled = natural × 10^decimals exactly —
and applies no conversion when the context declares the amount already
scaled; concretely, supplying "1.0" on an 18-decimals market dispatches
the scaled integer 10^18. -/
theorem convertAmount_scaling (a : AmountArg) (d : Dec) (dd : Nat)
    (h : amountToDec a = some d) :
    (d.e ≤ dd →
      convertAmount false a dd = some (d.m * 10 ^ (dd - d.e)) ∧
      d.m * 10 ^ (dd - d.e) * 10 ^ d.e = d.m * 10 ^ dd) ∧
    (d.e = 0 → convertAmount true a dd = some d.m) ∧
    supply sampleReg ⟨0, 10 ^ 19, 0, 0, 0, 0⟩ 7 "DAI" (.str ⟨10, 1⟩) {} =
      ⟨[Ev.readCall "borrowBalanceStored", Ev.readCall "allowance",
        Ev.txSubmit "mint" [Param.int (10 ^ 18)] none], none,
       { mantissa := false, abi := some Abi.cErc20, value := none,
         _compoundProvider := some 7 }⟩ := by
  refine ⟨fun he => ⟨?_, ?_⟩, fun he => ?_, by decide⟩
  · simp [convertAmount, h, parseUnits, he]
  · have hdd : dd - d.e + d.e = dd := by omega
    rw [mul_assoc, ← pow_add, hdd]
  · simp [convertAmount, h, bigNumberFrom, he]

/-- Witness for C7 at a concrete input: the decimal string "1.0"
(mantissa 10, one fractional digit) scaled to 18 decimals. -/
theorem convertAmount_scaling_witness :
    amountToDec (.str ⟨10, 1⟩) = some ⟨10, 1⟩ ∧
    ((1 ≤ 18 →
      convertAmount false (.str ⟨10, 1⟩) 18 = some (10 * 10 ^ (18 - 1)) ∧
      (10 : Int) * 10 ^ (18 - 1) * 10 ^ 1 = 10 * 10 ^ 18) ∧
    ((1 : Nat) = 0 → convertAmount true (.str ⟨10, 1⟩) 18 = some 10) ∧
    supply sampleReg ⟨0, 10 ^ 19, 0, 0, 0, 0⟩ 7 "DAI" (.str ⟨10, 1⟩) {} =
      ⟨[Ev.readCall "borrowBalanceStored", Ev.readCall "allowance",
        Ev.txSubmit "mint" [Param.int (10 ^ 18)] none], none,
       { mantissa := false, abi := some Abi.cErc20, value := none,
         _compoundProvider := some 7 }⟩) :=
  ⟨by decide, convertAmount_scaling (.str ⟨10, 1⟩) ⟨10, 1⟩ 18 (by decide)⟩

/-- C8: `supply` mutates the caller-supplied options object in place:
after any call that reaches the market-resolution step, the caller's
object has its `abi` and `_compoundProvider` fields assigned (for a
token market `cErc20`, for a native-currency market `cEther`), and a
successful native-currency supply additionally assigns `value`; all
other fields of the caller's object are preserved. -/
theorem supply_mutates_caller_options (reg : Registry) (env : ChainEnv) (prov : Nat)
    (asset : String) (amount : AmountArg) (options : CallOptions) (a : Int)
    (hres : ((reg.addressOf ("c" ++ asset)).isNone ||
              !(reg.underlyings.contains asset)) = false)
    (hok : amountTypeOk amount = true)
    (hconv : convertAmount options.mantissa amount (lookupDecimals reg asset) = some a) :
    (("c" ++ asset == reg.cETH || "c" ++ asset == reg.cRBTC) = false →
      (supply reg env prov asset amount options).options =
        { options with abi := some Abi.cErc20, _compoundProvider := some prov }) ∧
    (("c" ++ asset == reg.cETH || "c" ++ asset == reg.cRBTC) = true →
      (supply reg env prov asset amount options).err = none →
      (supply reg env prov asset amount options).options =
        { options with abi := some Abi.cEther, _compoundProvider := some prov,
                       value := some a }) ∧
    (("c" ++ asset == reg.cETH || "c" ++ asset == reg.cRBTC) = true →
      0 < env.borrowBalanceStored →
      (supply reg env prov asset amount options).options =
        { options with abi := some Abi.cEther, _compoundProvider := some prov }) := by
  simp at hres
  obtain ⟨h1, h2⟩ := hres
  rw [Option.isSome_iff_ne_none] at h1
  refine ⟨fun hnat => ?_, fun hnat herr => ?_, fun hnat hbb => ?_⟩
  · simp [supply, h1, h2, hok, hconv, hnat]
    split <;> simp
  · by_cases hbb : 0 < env.borrowBalanceStored
    · simp [supply, h1, h2, hok, hconv, hnat, hbb] at herr
    · simp [supply, h1, h2, hok, hconv, hnat, hbb]
  · simp [supply, h1, h2, hok, hconv, hnat, hbb]

/-- Witness for C8 at concrete inputs: a DAI supply leaves the caller's
options with `abi = cErc20` and the provider assigned, and a successful
native-currency ETH supply additionally assigns `value`. -/
theorem supply_mutates_caller_options_witness :
    ("c" ++ "DAI" == sampleReg.cETH || "c" ++ "DAI" == sampleReg.cRBTC) = false ∧
    (supply sampleReg ⟨0, 10 ^ 19, 0, 0, 0, 0⟩ 7 "DAI" (.num ⟨1, 0⟩) {}).options =
      { mantissa := false, abi := some Abi.cErc20, value := none,
        _compoundProvider := some 7 } ∧
    ("c" ++ "ETH" == sampleReg.cETH || "c" ++ "ETH" == sampleReg.cRBTC) = true ∧
    (supply sampleReg ⟨0, 0, 0, 0, 0, 0⟩ 7 "ETH" (.num ⟨1, 0⟩) {}).err = none ∧
    (supply sampleReg ⟨0, 0, 0, 0, 0, 0⟩ 7 "ETH" (.num ⟨1, 0⟩) {}).options =
      { mantissa := false, abi := some Abi.cEther, value := some (10 ^ 18),
        _compoundProvider := some 7 } :=
  ⟨by decide,
    (supply_mutates_caller_options sampleReg ⟨0, 10 ^ 19, 0, 0, 0, 0⟩ 7 "DAI"
      (.num ⟨1, 0⟩) {} (10 ^ 18) (by decide) (by decide) (by decide)).1 (by decide),
    by decide, by decide,
    (supply_mutates_caller_options sampleReg ⟨0, 0, 0, 0, 0, 0⟩ 7 "ETH"
      (.num ⟨1, 0⟩) {} (10 ^ 18) (by decide) (by decide) (by decide)).2.1
      (by decide) (by decide)⟩

/-- C10: when `redeem` converts a natural amount, the decimal precision
is looked up under the symbol exactly as the caller supplied it — for a
market-token-prefixed symbol the scale exponent is the decimals entry
keyed by that market-token name, not the underlying's; concretely, with
8 decimals under "cDAI" and 18 under "DAI", redeeming 2 "cDAI" dispatches
2·10^8, which differs from the underlying-scaled 2·10^18. -/
theorem redeem_scales_by_supplied_symbol (reg : Registry) (env : ChainEnv)
    (asset : String) (amount : AmountArg) (options : CallOptions) (d : Dec)
    (hlen : ¬ asset.length < 1)
    (hc : headIsC asset = true)
    (hsupp : (!(reg.cTokens.contains (redeemCTokenName asset)) ||
               !(reg.underlyings.contains (redeemUnderlyingName asset))) = false)
    (hok : amountTypeOk amount = true)
    (hm : options.mantissa = false)
    (hd : amountToDec amount = some d)
    (he : d.e ≤ lookupDecimals reg asset)
    (hbal : ¬ ((env.balanceOf : Int) <
                d.m * 10 ^ (lookupDecimals reg asset - d.e))) :
    redeem reg env asset amount options =
      ⟨[Ev.readCall "balanceOf",
        Ev.txSubmit "redeem"
          [Param.int (d.m * 10 ^ (lookupDecimals reg asset - d.e))]
          options.value], none⟩ ∧
    redeem sampleReg ⟨0, 0, 10 ^ 9, 0, 0, 0⟩ "cDAI" (.num ⟨2, 0⟩) {} =
      ⟨[Ev.readCall "balanceOf",
        Ev.txSubmit "redeem" [Param.int (2 * 10 ^ 8)] none], none⟩ ∧
    (2 * 10 ^ 8 : Int) ≠ 2 * 10 ^ 18 := by
  have hconv : convertAmount options.mantissa amount (lookupDecimals reg asset) =
      some (d.m * 10 ^ (lookupDecimals reg asset - d.e)) := by
    simp [convertAmount, hd, hm, parseUnits, he]
  simp at hsupp
  obtain ⟨h1, h2⟩ := hsupp
  refine ⟨?_, by decide, by decide⟩
  simp [redeem, hlen, h1, h2, hok, hconv, hc, hbal]

/-- Witness for C10 at a concrete input: redeeming 2 "cDAI" with the
sample registry (8 decimals under "cDAI", 18 under "DAI"). -/
theorem redeem_scales_by_supplied_symbol_witness :
    headIsC "cDAI" = true ∧
    amountToDec (.num ⟨2, 0⟩) = some ⟨2, 0⟩ ∧
    (redeem sampleReg ⟨0, 0, 10 ^ 9, 0, 0, 0⟩ "cDAI" (.num ⟨2, 0⟩) {} =
      ⟨[Ev.readCall "balanceOf",
        Ev.txSubmit "redeem" [Param.int (2 * 10 ^ 8)] none], none⟩ ∧
    redeem sampleReg ⟨0, 0, 10 ^ 9, 0, 0, 0⟩ "cDAI" (.num ⟨2, 0⟩) {} =
      ⟨[Ev.readCall "balanceOf",
        Ev.txSubmit "redeem" [Param.int (2 * 10 ^ 8)] none], none⟩ ∧
    (2 * 10 ^ 8 : Int) ≠ 2 * 10 ^ 18) :=
  ⟨by decide, by decide, by
    have h := redeem_scales_by_supplied_symbol sampleReg ⟨0, 0, 10 ^ 9, 0, 0, 0⟩
      "cDAI" (.num ⟨2, 0⟩) {} ⟨2, 0⟩ (by decide) (by decide) (by decide) (by decide)
      (by decide) (by decide) (by decide) (by decide)
    exact h⟩
